import Mathlib

/-!
Shallow embedding of `src/server.js` (an Express backend for an automotive
service shop) and proofs about its request handlers and store engine.

Modelling conventions:
- JSON/JavaScript values are modelled by `JSValue`; a finite JS number is a
  rational (`jnum`), a non-finite number (NaN or ±Infinity) is `jnan`.
- A field absent from a request body destructures to `jundefined`, exactly as
  in `const { name, ... } = req.body || {}`.
- The five JSON-file stores are `Stores`, a pure record of lists; `addRecord`
  (load, push, save) becomes list append, and "no write performed" becomes
  "the store component is returned unchanged".
- Handlers are pure functions of (request body fields, fresh UUID, current
  timestamp, stores) returning (HTTP status, response body, new stores).
  `randomUUID()` and `new Date().toISOString()` are passed in as parameters.
- SMS notification (`notifyCustomerAndAdmin`) is wrapped in try/catch in every
  caller and touches neither the response nor the stores, so the handler
  models omit it; `sendSms` itself is modelled separately for the phone
  normalization claims.
- `Number()` string coercion is modelled for decimal literals with optional
  sign, fraction and exponent, `0x`/`0b`/`0o` radix integer literals, and
  surrounding whitespace; the exact literal value is then converted to a
  double to the fidelity the handlers observe: overflow to Infinity
  (non-finite, `none`) at the IEEE-754 boundary, underflow to `0`, and
  in-range values kept as exact rationals (the double agrees in sign,
  zero-ness and finiteness, and the spec's example values are exactly
  representable). The `Infinity` spellings parse as NaN, which the model's
  `none` (non-finite) bucket makes observationally identical.
- `toString` of a finite JS number follows JS: `0` prints as `0`, magnitudes
  at least `10^21` or below `10^-6` print in exponential notation, the rest
  positionally; exact for every value with a terminating decimal expansion
  (in particular for every JS double).
- Property access on `null`/`undefined` throws; in the spares handler that
  thrown TypeError rejects the async handler's promise, which the process
  only logs — no response is sent and no store is written. `postSpares`
  therefore returns an `Except`, with `.error` for that path.
-/

/-- A JavaScript/JSON value as seen by the server's handlers. -/
inductive JSValue where
  | jundefined
  | jnull
  | jbool (b : Bool)
  | jnum (q : ℚ)
  | jnan
  | jstr (s : String)
  | jarr (elems : List JSValue)
  | jobj (fields : List (String × JSValue))

/-- JavaScript truthiness: `undefined`, `null`, `false`, `0`, `NaN` and `""`
are falsy; every other value (including every array and object) is truthy. -/
def truthy : JSValue → Bool
  | .jundefined => false
  | .jnull => false
  | .jbool b => b
  | .jnum q => q != 0
  | .jnan => false
  | .jstr s => !s.isEmpty
  | .jarr _ => true
  | .jobj _ => true

/-- Decimal digits of `rem/den` (with `rem < den`) by long division, with
fuel bounding the length. -/
def fracDigits : Nat → Nat → Nat → List Char
  | 0, _, _ => []
  | _ + 1, 0, _ => []
  | n + 1, rem, den =>
    Char.ofNat (48 + rem * 10 / den) :: fracDigits n (rem * 10 % den) den

/-- Positional decimal rendering of the nonnegative rational `n/den`: no
decimal point for integers, otherwise integer part, a dot and the fraction
digits. The 1100-digit fuel is exact for every dyadic rational a JS double
can be (at most 1074 fraction digits); only a non-double rational with a
longer expansion gets truncated. -/
def numToStringCore (n den : Nat) : String :=
  let ip := n / den
  let rem := n % den
  if rem = 0 then toString ip
  else toString ip ++ "." ++ String.mk (fracDigits 1100 rem den)

/-- Exponential rendering `d.ddd e+k` of `n/den ≥ 10^21` (JS prints such
magnitudes in exponential notation, e.g. `String(1e21) = "1e+21"`). -/
def numToStringExpPos (n den : Nat) : String :=
  let k := (Nat.toDigits 10 (n / den)).length - 1
  numToStringCore n (den * 10 ^ k) ++ "e+" ++ toString k

/-- Exponential rendering `d.ddd e-k` of `0 < n/den < 10^-6` (JS prints such
magnitudes in exponential notation, e.g. `String(1e-7) = "1e-7"`). -/
def numToStringExpNeg (n den : Nat) : String :=
  let k0 := (Nat.toDigits 10 den).length - (Nat.toDigits 10 n).length
  let k := if n * 10 ^ k0 < den then k0 + 1 else k0
  numToStringCore (n * 10 ^ k) den ++ "e-" ++ toString k

/-- Rendering of the nonnegative rational `n/den` following JS
`Number.prototype.toString`: `0` prints as `0`, magnitudes at least `10^21`
and below `10^-6` print in exponential notation, everything in between
prints positionally. -/
def numToStringAbs (n den : Nat) : String :=
  if n = 0 then "0"
  else if den * 10 ^ 21 ≤ n then numToStringExpPos n den
  else if n * 10 ^ 6 < den then numToStringExpNeg n den
  else numToStringCore n den

/-- JS `Number.prototype.toString` for finite numbers: a minus sign for
negatives around the rendering of the magnitude. Exact for every value with
a terminating decimal expansion (in particular for every JS double). -/
def numToString (q : ℚ) : String :=
  if q.num < 0 then "-" ++ numToStringAbs q.num.natAbs q.den
  else numToStringAbs q.num.toNat q.den

mutual
/-- JS string conversion `String(v)`, as performed by template literals:
strings pass through, numbers print in decimal, arrays join their elements
with commas (`null`/`undefined` elements become empty), objects print as
`[object Object]`. -/
def jsToString : JSValue → String
  | .jundefined => "undefined"
  | .jnull => "null"
  | .jbool b => cond b "true" "false"
  | .jnum q => numToString q
  | .jnan => "NaN"
  | .jstr s => s
  | .jarr l => jsArrToString l
  | .jobj _ => "[object Object]"

/-- Array-to-string: elements joined with commas (`Array.prototype.join`). -/
def jsArrToString : List JSValue → String
  | [] => ""
  | [x] => jsElemToString x
  | x :: xs => jsElemToString x ++ "," ++ jsArrToString xs

/-- Element stringification inside `Array.prototype.join`: `null` and
`undefined` become the empty string. -/
def jsElemToString : JSValue → String
  | .jnull => ""
  | .jundefined => ""
  | v => jsToString v
end

/-- Numeric value of a list of decimal digit characters. -/
def digitsVal (cs : List Char) : Nat :=
  cs.foldl (fun a c => a * 10 + (c.toNat - 48)) 0

/-- Parse an optional exponent suffix (`e`/`E`, optional sign, digits); an
empty remainder is exponent `0`, anything malformed is NaN. -/
def parseExpPart (cs : List Char) : Option Int :=
  match cs with
  | [] => some 0
  | e :: rest =>
    if e = 'e' ∨ e = 'E' then
      let (sign, ds) : Int × List Char :=
        match rest with
        | '+' :: r => (1, r)
        | '-' :: r => (-1, r)
        | r => (1, r)
      if ds.isEmpty ∨ ¬ ds.all Char.isDigit then none
      else some (sign * (digitsVal ds : Int))
    else none

/-- The rational `m * 10 ^ e` for a natural mantissa and integer exponent. -/
def applyExp (m : Nat) (e : Int) : ℚ :=
  if 0 ≤ e then mkRat (m * 10 ^ e.toNat : Nat) 1 else mkRat m (10 ^ (-e).toNat)

/-- Parse an unsigned decimal literal (`digits`, `digits.digits`, `.digits`,
`digits.`), possibly followed by an exponent. -/
def parseUnsigned (cs : List Char) : Option ℚ :=
  let intPart := cs.takeWhile Char.isDigit
  let rest := cs.dropWhile Char.isDigit
  match rest with
  | '.' :: rest2 =>
    let fracPart := rest2.takeWhile Char.isDigit
    let rest3 := rest2.dropWhile Char.isDigit
    if intPart.isEmpty ∧ fracPart.isEmpty then none
    else
      (parseExpPart rest3).map fun e =>
        applyExp (digitsVal intPart * 10 ^ fracPart.length + digitsVal fracPart)
          (e - (fracPart.length : Int))
  | _ =>
    if intPart.isEmpty then none
    else (parseExpPart rest).map fun e => applyExp (digitsVal intPart) e

/-- Parse a signed decimal literal. -/
def parseNumLit (cs : List Char) : Option ℚ :=
  match cs with
  | '+' :: rest => parseUnsigned rest
  | '-' :: rest => (parseUnsigned rest).map Rat.neg
  | _ => parseUnsigned cs

/-- Whitespace for the purposes of `Number(string)` trimming. -/
def isJsWs (c : Char) : Bool :=
  c = ' ' ∨ c = '\t' ∨ c = '\n' ∨ c = '\r'

/-- The IEEE-754 double-precision overflow boundary `2^1024 - 2^970` (values
of at least this magnitude round to Infinity under ties-to-even), written as
a literal so that it evaluates; `ovfBoundary_eq` checks the value. -/
def ovfBoundary : Nat := 179769313486231580793728971405303415079934132710037826936173778980444968292764750946649017977587207096330286416692887910946555547851940402630657488671505820681908902000708383676273854845817711531764475730270069855571366959622842914819860834936475292719074168444365510704342711559699508093042880177904174497792

/-- The denominator of the IEEE-754 double-precision underflow boundary
`2^-1075` (magnitudes at most it round to zero under ties-to-even), written
as a literal so that it evaluates; `unfDenominator_eq` checks the value. -/
def unfDenominator : Nat := 404804506614621236704990693437834614099113299528284236713802716054860679135990693783920767402874248990374155728633623822779617474771586953734026799881477019843034848553132722728933815484186432682479535356945490137124014966849385397236206711298319112681620113024717539104666829230461005064372655017292012526615415482186989568

/-- Whether the exact value of a numeric literal rounds to an IEEE-754
double-precision Infinity: magnitude at least `2^1024 - 2^970` (the
round-to-nearest-ties-to-even boundary above the largest finite double). -/
def roundsToInfinity (q : ℚ) : Bool :=
  ovfBoundary * q.den ≤ q.num.natAbs

/-- Whether the exact value of a numeric literal underflows to zero as an
IEEE-754 double: magnitude at most `2^-1075` (the ties-to-even boundary
below the smallest subnormal). -/
def roundsToZero (q : ℚ) : Bool :=
  q.num.natAbs * unfDenominator ≤ q.den

/-- Conversion of a literal's exact value to a JS double, to the fidelity the
handlers observe: overflow gives Infinity (non-finite, `none`), underflow
gives `0`, and an in-range value is kept as the exact rational (the double is
within one rounding of it, with identical sign, zero-ness and finiteness). -/
def fitDouble (q : ℚ) : Option ℚ :=
  if roundsToInfinity q then none
  else if roundsToZero q then some 0
  else some q

/-- Value of a hexadecimal digit character (of either case). -/
def hexDigitVal (c : Char) : Nat :=
  if c.isDigit then c.toNat - 48
  else if 'a' ≤ c ∧ c ≤ 'f' then c.toNat - 87
  else c.toNat - 55

/-- Digit test for a radix-`r` (2, 8 or 16) integer literal. -/
def isRadixDigit (r : Nat) (c : Char) : Bool :=
  if r = 16 then c.isDigit ∨ ('a' ≤ c ∧ c ≤ 'f') ∨ ('A' ≤ c ∧ c ≤ 'F')
  else '0' ≤ c ∧ c.toNat < 48 + r

/-- Parse the digits of a `0x`/`0b`/`0o` integer literal (unsigned, no
fraction or exponent, NaN when empty or with a foreign character). -/
def parseRadix (r : Nat) (cs : List Char) : Option ℚ :=
  if cs.isEmpty ∨ ¬ cs.all (isRadixDigit r) then none
  else some (mkRat (cs.foldl (fun a c => a * r + hexDigitVal c) 0) 1)

/-- JS `Number(string)`: trims whitespace, the empty string is `0`, a
`0x`/`0b`/`0o` prefix introduces an unsigned radix integer literal, anything
else is a signed decimal literal; a malformed literal is NaN (`none`) and the
exact value is then converted to a double (`fitDouble`). -/
def strToNumber (s : String) : Option ℚ :=
  let t := ((s.toList.dropWhile isJsWs).reverse.dropWhile isJsWs).reverse
  if t.isEmpty then some 0
  else
    match t with
    | '0' :: x :: rest =>
      if x = 'x' ∨ x = 'X' then (parseRadix 16 rest).bind fitDouble
      else if x = 'b' ∨ x = 'B' then (parseRadix 2 rest).bind fitDouble
      else if x = 'o' ∨ x = 'O' then (parseRadix 8 rest).bind fitDouble
      else (parseNumLit t).bind fitDouble
    | _ => (parseNumLit t).bind fitDouble

/-- JS `Number(v)` coercion; `none` is a non-finite result (NaN). Arrays and
objects coerce through their string conversion. -/
def toNumber : JSValue → Option ℚ
  | .jundefined => none
  | .jnull => some 0
  | .jbool b => some (cond b 1 0)
  | .jnum q => some q
  | .jnan => none
  | .jstr s => strToNumber s
  | .jarr l => strToNumber (jsToString (.jarr l))
  | .jobj f => strToNumber (jsToString (.jobj f))

/-- The field a defined value yields under property access: an object looks
up the key (JS objects have unique keys), any other defined value yields
`undefined` for the handlers' keys. -/
def jgetD (v : JSValue) (k : String) : JSValue :=
  match v with
  | .jobj fields => ((fields.find? (fun p => p.1 = k)).map Prod.snd).getD .jundefined
  | _ => .jundefined

/-- Property access `v[k]`: on `null` or `undefined` it throws a TypeError
(the `.error` case, which in an async handler becomes a swallowed unhandled
rejection — no response, no write); otherwise it yields the field. -/
def jget (v : JSValue) (k : String) : Except Unit JSValue :=
  match v with
  | .jnull => .error ()
  | .jundefined => .error ()
  | _ => .ok (jgetD v k)

/-- JS `a || b`: the first operand if truthy, otherwise the second. -/
def jsOr (a b : JSValue) : JSValue :=
  if truthy a then a else b

/-- JS strict equality `v === s` against a string constant: true exactly for
the string value with equal contents. -/
def jsStrictEqStr (v : JSValue) (s : String) : Bool :=
  match v with
  | .jstr t => t = s
  | _ => false

/-- `envVar || defaultValue` for environment variables: an absent or empty
variable falls back to the default. -/
def orDefault (v : Option String) (d : String) : String :=
  match v with
  | some s => if s.isEmpty then d else s
  | none => d

/-! ## Records and stores

The record shapes mirror the object literals built in `src/server.js`.
Submitted fields keep their `JSValue` type (the handlers never coerce them);
`id`, `details` and `createdAt` are strings built by the handler. -/

/-- The customer-record projection built by the appointment and spare-parts
handlers (the `record` local in both handlers), also the shape stored in the
`customer-records` collection and echoed in their responses. -/
structure CustomerRecord where
  id : String
  type : String
  name : JSValue
  phone : JSValue
  address : JSValue
  details : String
  createdAt : String

/-- What the appointment handler stores in the `appointments` collection:
`{ ...record, vehicle, issue }`. -/
structure AppointmentRecord extends CustomerRecord where
  vehicle : JSValue
  issue : JSValue

/-- What the spare-parts handler stores in the `spares` collection:
`{ ...record, parts, total }`. -/
structure SpareRecord extends CustomerRecord where
  parts : List JSValue
  total : JSValue

/-- A stored feedback record; `rating` is the coerced finite number. -/
structure FeedbackRecord where
  id : String
  name : JSValue
  message : JSValue
  rating : ℚ
  createdAt : String

/-- A stored contact record. -/
structure ContactRecord where
  id : String
  name : JSValue
  phone : JSValue
  message : JSValue
  createdAt : String

/-- The five JSON-file stores, as in-memory lists. -/
structure Stores where
  appointments : List AppointmentRecord
  spares : List SpareRecord
  feedback : List FeedbackRecord
  contacts : List ContactRecord
  customerRecords : List CustomerRecord

/-- The state of the stores on a fresh data directory. -/
def emptyStores : Stores := ⟨[], [], [], [], []⟩

/-- `addRecord(key, record)`: load, push, save — append to the store. -/
def addRecord {α : Type} (records : List α) (record : α) : List α :=
  records ++ [record]

/-- An endpoint's JSON response body: `{ok:false, message}` on failure,
`{ok:true}` (record `none`) or `{ok:true, record}` (record `some`) on
success. -/
inductive ApiBody (ρ : Type) where
  | failure (message : String)
  | success (record : Option ρ)

/-! ## Submission and admin handlers -/

/-- The appointment request body fields (`req.body || {}` destructuring;
an absent field is `jundefined`). -/
structure ApptReq where
  name : JSValue
  phone : JSValue
  address : JSValue
  vehicle : JSValue
  issue : JSValue

/-- The `POST /api/appointments` handler: validates the five fields, builds
the projection record with a details text from vehicle and issue, appends the
extended record to `appointments` and the projection to `customer-records`,
and responds 200 with the projection (notification is best-effort and touches
neither response nor stores). -/
def postAppointments (b : ApptReq) (freshId now : String) (st : Stores) :
    Nat × ApiBody CustomerRecord × Stores :=
  if !truthy b.name || !truthy b.phone || !truthy b.address
      || !truthy b.vehicle || !truthy b.issue then
    (400, .failure "All appointment fields are required.", st)
  else
    let record : CustomerRecord :=
      { id := freshId, type := "Appointment",
        name := b.name, phone := b.phone, address := b.address,
        details := "Vehicle: " ++ jsToString b.vehicle
          ++ " | Issue: " ++ jsToString b.issue,
        createdAt := now }
    let apptRec : AppointmentRecord :=
      { toCustomerRecord := record, vehicle := b.vehicle, issue := b.issue }
    let st := { st with appointments := addRecord st.appointments apptRec }
    let st := { st with customerRecords := addRecord st.customerRecords record }
    (200, .success (some record), st)

/-- The spare-parts request body fields. -/
structure SpareReq where
  name : JSValue
  phone : JSValue
  address : JSValue
  parts : JSValue
  total : JSValue

/-- `Array.isArray(parts) && parts.length !== 0`. -/
def isNonEmptyArray : JSValue → Bool
  | .jarr l => !l.isEmpty
  | _ => false

/-- The element list of an array value (only used after `isNonEmptyArray`). -/
def asArray : JSValue → List JSValue
  | .jarr l => l
  | _ => []

/-- The summary text of one defined part, as produced by
`` `${part.name || "Part"} | Qty: ${part.qty || "1"} | Amount: ${part.amount || "0"}` ``. -/
def partSummaryText (part : JSValue) : String :=
  jsToString (jsOr (jgetD part "name") (.jstr "Part"))
    ++ " | Qty: " ++ jsToString (jsOr (jgetD part "qty") (.jstr "1"))
    ++ " | Amount: " ++ jsToString (jsOr (jgetD part "amount") (.jstr "0"))

/-- One part's summary line: the three property accesses (each of which
throws on a `null` or `undefined` part), defaults applied to falsy values,
interpolated into the template. -/
def partSummary (part : JSValue) : Except Unit String :=
  match jget part "name", jget part "qty", jget part "amount" with
  | .ok n, .ok q, .ok a =>
    .ok (jsToString (jsOr n (.jstr "Part"))
      ++ " | Qty: " ++ jsToString (jsOr q (.jstr "1"))
      ++ " | Amount: " ++ jsToString (jsOr a (.jstr "0")))
  | _, _, _ => .error ()

/-- The `POST /api/spares` handler: validates customer fields and a non-empty
parts array, builds the parts summary (a `null`/`undefined` element makes
`part.name` throw: the promise rejection is swallowed process-wide and no
response or write happens — the `.error` case), builds the projection record,
appends the extended record to `spares` and the projection to
`customer-records`, and responds 200 with the projection. -/
def postSpares (b : SpareReq) (freshId now : String) (st : Stores) :
    Except Unit (Nat × ApiBody CustomerRecord × Stores) :=
  if !truthy b.name || !truthy b.phone || !truthy b.address
      || !isNonEmptyArray b.parts then
    .ok (400, .failure "Customer details and at least one part are required.", st)
  else
    match (asArray b.parts).mapM partSummary with
    | .error e => .error e
    | .ok summaries =>
      let partsSummary := String.intercalate " | " summaries
      let record : CustomerRecord :=
        { id := freshId, type := "Spare Parts",
          name := b.name, phone := b.phone, address := b.address,
          details := partsSummary ++ " | Total: " ++ jsToString (jsOr b.total (.jstr "0")),
          createdAt := now }
      let spareRec : SpareRecord :=
        { toCustomerRecord := record, parts := asArray b.parts, total := b.total }
      let st := { st with spares := addRecord st.spares spareRec }
      let st := { st with customerRecords := addRecord st.customerRecords record }
      .ok (200, .success (some record), st)

/-- The feedback request body fields. -/
structure FeedbackReq where
  name : JSValue
  message : JSValue
  rating : JSValue

/-- The `POST /api/feedback` handler: `ratingValue = Number(rating)` must be
finite and positive and name and message truthy, else 400; on success the
record stores the coerced rating and is appended to `feedback`. -/
def postFeedback (b : FeedbackReq) (freshId now : String) (st : Stores) :
    Nat × ApiBody FeedbackRecord × Stores :=
  match toNumber b.rating with
  | none => (400, .failure "Name, message, and rating are required.", st)
  | some ratingValue =>
    if !truthy b.name || !truthy b.message || ratingValue ≤ 0 then
      (400, .failure "Name, message, and rating are required.", st)
    else
      let record : FeedbackRecord :=
        { id := freshId, name := b.name, message := b.message,
          rating := ratingValue, createdAt := now }
      (200, .success (some record),
        { st with feedback := addRecord st.feedback record })

/-- The contact request body fields. -/
structure ContactReq where
  name : JSValue
  phone : JSValue
  message : JSValue

/-- The `POST /api/contact` handler: validates the three fields, appends the
record to `contacts`, and responds `res.json({ ok: true })` — without the
created record in the body. -/
def postContact (b : ContactReq) (freshId now : String) (st : Stores) :
    Nat × ApiBody ContactRecord × Stores :=
  if !truthy b.name || !truthy b.phone || !truthy b.message then
    (400, .failure "All contact fields are required.", st)
  else
    let record : ContactRecord :=
      { id := freshId, name := b.name, phone := b.phone,
        message := b.message, createdAt := now }
    (200, .success none, { st with contacts := addRecord st.contacts record })

/-- The `POST /api/login` handler: credentials default to `admin`/`admin123`
when the environment variables are unset (or empty, `||` being falsy-based);
a missing field is 400, a strict-inequality mismatch is 401, a match is 200
`{ok:true}`. -/
def postLogin (username password : JSValue) (adminUserEnv adminPassEnv : Option String) :
    Nat × ApiBody Unit :=
  let adminUser := orDefault adminUserEnv "admin"
  let adminPass := orDefault adminPassEnv "admin123"
  if !truthy username || !truthy password then
    (400, .failure "Missing username or password.")
  else if !jsStrictEqStr username adminUser || !jsStrictEqStr password adminPass then
    (401, .failure "Invalid credentials.")
  else
    (200, .success none)

/-- The `DELETE /api/customer-records/:id` handler: filters out records whose
`id` strictly equals the path parameter; if the length is unchanged responds
404 without saving (`none`), otherwise saves the filtered list (`some`) and
responds 200. -/
def deleteCustomerRecord (id : String) (records : List CustomerRecord) :
    Nat × ApiBody Unit × Option (List CustomerRecord) :=
  let next := records.filter (fun record => record.id ≠ id)
  if next.length = records.length then
    (404, .failure "Record not found.", none)
  else
    (200, .success none, some next)

/-! ## Store engine (`readJson` / `loadStore`) -/

/-- The observable state of a collection's backing file: absent (read fails
with ENOENT), unreadable or malformed (read or `JSON.parse` throws a
non-ENOENT error), or parsed to a value. -/
inductive FileContent where
  | absent
  | invalid
  | parsed (v : JSValue)

/-- Whether `data ?? fallback` takes the fallback branch. -/
def isNullish : JSValue → Bool
  | .jnull => true
  | .jundefined => true
  | _ => false

/-- `readJson(filePath, fallback)`: on ENOENT write the fallback and return
it; on another read/parse error rethrow; otherwise return `data ?? fallback`,
leaving the file as read. The pair carries the resulting file state. -/
def readJson (file : FileContent) (fallback : JSValue) :
    Except Unit (JSValue × FileContent) :=
  match file with
  | .absent => .ok (fallback, .parsed fallback)
  | .invalid => .error ()
  | .parsed v => .ok (if isNullish v then fallback else v, .parsed v)

/-- `loadStore(key)`: `readJson` with the empty array as fallback. -/
def loadStore (file : FileContent) : Except Unit (JSValue × FileContent) :=
  readJson file (.jarr [])

/-- The `GET /api/feedback` handler: loads the feedback store and responds
200 with `{ok:true, records}`; the triple is (status, ok flag, records). -/
def getFeedback (file : FileContent) :
    Except Unit ((Nat × Bool × JSValue) × FileContent) :=
  match loadStore file with
  | .error e => .error e
  | .ok (records, file') => .ok ((200, true, records), file')

/-! ## Notification dispatcher (`sendSms`) -/

/-- The environment configuration `sendSms` reads: Twilio SID, auth token,
sender number, and the default country code. -/
structure SmsEnv where
  sid : Option String
  auth : Option String
  phone : Option String
  countryCode : Option String

/-- Truthiness of an environment variable (absent or empty is falsy). -/
def truthyEnv : Option String → Bool
  | some s => !s.isEmpty
  | none => false

/-- The observable outcome of one `sendSms` call. -/
inductive SmsOutcome where
  | skippedNotConfigured
  | skippedInvalid (attempted : String)
  | sent (src dst msg : String)
deriving DecidableEq

/-- `to.startsWith("+")`: whether the string's first character is `+`. -/
def startsWithPlus (s : String) : Bool :=
  match s.toList with
  | '+' :: _ => true
  | _ => false

/-- The regex `/^\+\d{10,15}$/`: a `+` followed by 10 to 15 digits. -/
def phonePattern (s : String) : Bool :=
  match s.toList with
  | '+' :: ds => ds.all Char.isDigit && decide (10 ≤ ds.length) && decide (ds.length ≤ 15)
  | _ => false

/-- `sendSms({to, body})`: skip when the client (SID and token) or sender
number is not configured; when `to` does not start with `+`, strip non-digits
and prepend the configured country code (default `+91`); skip with a warning
when the result fails the 10–15-digit pattern; otherwise send. -/
def sendSms (env : SmsEnv) (toArg msg : String) : SmsOutcome :=
  if !(truthyEnv env.sid && truthyEnv env.auth) || !truthyEnv env.phone then
    .skippedNotConfigured
  else
    let toNorm :=
      if startsWithPlus toArg then toArg
      else orDefault env.countryCode "+91" ++ String.mk (toArg.toList.filter Char.isDigit)
    if !phonePattern toNorm then .skippedInvalid toNorm
    else .sent ((env.phone).getD "") toNorm msg

/-- The amended claim's field rendering: a field prints as its string
conversion when truthy and as its stated default when absent or otherwise
falsy (`0`, the empty string, `null`, `false`, NaN). -/
def fieldOrDefault (v : JSValue) (d : String) : String :=
  if truthy v then jsToString v else d

/-- The amended claim's per-part summary: the three fields are accessed (an
access on a `null`/`undefined` part throws) and rendered with the defaults
`Part`, `1` and `0`. -/
def partSummarySpec (part : JSValue) : Except Unit String := do
  let n ← jget part "name"
  let q ← jget part "qty"
  let a ← jget part "amount"
  .ok (fieldOrDefault n "Part" ++ " | Qty: " ++ fieldOrDefault q "1"
    ++ " | Amount: " ++ fieldOrDefault a "0")

/-- The amended claim's description of the details text: the per-part
summaries joined by `" | "`, followed by `" | Total: "` and the total
(default `0`), with field defaults applied to absent and falsy values. -/
def detailsSpec (parts : List JSValue) (total : JSValue) : Except Unit String := do
  let summaries ← parts.mapM partSummarySpec
  .ok (String.intercalate " | " summaries ++ " | Total: " ++ fieldOrDefault total "0")

/-! ## Helper lemmas -/

/-- The fallback of `orDefault` keeps the result nonempty when the default is
nonempty. -/
theorem orDefault_isEmpty_eq_false (v : Option String) (d : String)
    (hd : d.isEmpty = false) : (orDefault v d).isEmpty = false := by
  unfold orDefault
  cases v with
  | none => exact hd
  | some s =>
    by_cases hs : s.isEmpty
    · simp [hs, hd]
    · simp [hs]

/-- Sanity check: the overflow boundary literal is `2^1024 - 2^970`. -/
theorem ovfBoundary_eq : ovfBoundary = 2 ^ 1024 - 2 ^ 970 := by
  norm_num [ovfBoundary]

/-- Sanity check: the underflow boundary literal is `2^1075`. -/
theorem unfDenominator_eq : unfDenominator = 2 ^ 1075 := by
  norm_num [unfDenominator]

/-- Helper: property access on a defined (neither `null` nor `undefined`)
value yields its field. -/
theorem jget_ok (v : JSValue) (k : String) (h1 : v ≠ .jnull)
    (h2 : v ≠ .jundefined) : jget v k = .ok (jgetD v k) := by
  cases v <;> simp_all [jget]

/-- Helper: the summary of a defined part is its summary text. -/
theorem partSummary_ok (p : JSValue) (h1 : p ≠ .jnull) (h2 : p ≠ .jundefined) :
    partSummary p = .ok (partSummaryText p) := by
  simp only [partSummary, jget_ok p "name" h1 h2, jget_ok p "qty" h1 h2,
    jget_ok p "amount" h1 h2, partSummaryText]

/-- Helper: mapping an `Except`-valued function that succeeds on every
element succeeds with the list of results. -/
theorem mapM_ok_of_all {α β : Type} (f : α → Except Unit β) (g : α → β)
    (l : List α) (h : ∀ p ∈ l, f p = .ok (g p)) :
    l.mapM f = .ok (l.map g) := by
  induction l with
  | nil => rfl
  | cons a t ih =>
    rw [List.mapM_cons, h a (List.mem_cons_self a t)]
    simp only [List.map_cons]
    rw [ih fun p hp => h p (List.mem_cons_of_mem a hp)]
    rfl

/-- Helper: the parts map succeeds on a list of defined parts, producing the
summary texts. -/
theorem mapM_partSummary_ok (l : List JSValue)
    (h : ∀ p ∈ l, p ≠ .jnull ∧ p ≠ .jundefined) :
    l.mapM partSummary = .ok (l.map partSummaryText) :=
  mapM_ok_of_all partSummary partSummaryText l
    (fun p hp => partSummary_ok p (h p hp).1 (h p hp).2)

/-- Helper: the parts map throws when some part is `null` or `undefined`. -/
theorem mapM_partSummary_error (l : List JSValue)
    (h : ∃ p ∈ l, p = .jnull ∨ p = .jundefined) :
    l.mapM partSummary = .error () := by
  induction l with
  | nil => simp at h
  | cons a t ih =>
    rw [List.mapM_cons]
    by_cases hnull : a = .jnull ∨ a = .jundefined
    · rcases hnull with h' | h' <;> subst h' <;> rfl
    · push_neg at hnull
      rcases h with ⟨p, hp, hval⟩
      rcases List.mem_cons.mp hp with rfl | hpt
      · rcases hval with h' | h'
        · exact absurd h' hnull.1
        · exact absurd h' hnull.2
      · rw [partSummary_ok a hnull.1 hnull.2]
        rw [show (Except.ok (partSummaryText a) >>= fun x =>
            t.mapM partSummary >>= fun xs => pure (x :: xs))
          = (t.mapM partSummary >>= fun xs => pure (partSummaryText a :: xs)) from rfl]
        rw [ih ⟨p, hpt, hval⟩]
        rfl

/-- Helper: the amended spec's field rendering agrees with the handler's
`value || default` interpolation. -/
theorem fieldOrDefault_eq_toString_jsOr (v : JSValue) (d : String) :
    fieldOrDefault v d = jsToString (jsOr v (.jstr d)) := by
  by_cases h : truthy v <;> simp [fieldOrDefault, jsOr, h, jsToString]

/-- Helper: the amended spec's per-part summary of a defined part agrees with
the handler's summary text. -/
theorem partSummarySpec_ok (p : JSValue) (h1 : p ≠ .jnull) (h2 : p ≠ .jundefined) :
    partSummarySpec p = .ok (partSummaryText p) := by
  simp only [partSummarySpec, jget_ok p "name" h1 h2, jget_ok p "qty" h1 h2,
    jget_ok p "amount" h1 h2, fieldOrDefault_eq_toString_jsOr, partSummaryText]
  rfl

/-- Helper: the amended spec's details text of a defined parts list. -/
theorem detailsSpec_ok (l : List JSValue) (total : JSValue)
    (h : ∀ p ∈ l, p ≠ .jnull ∧ p ≠ .jundefined) :
    detailsSpec l total
      = .ok (String.intercalate " | " (l.map partSummaryText)
          ++ " | Total: " ++ jsToString (jsOr total (.jstr "0"))) := by
  have hm : l.mapM partSummarySpec = .ok (l.map partSummaryText) :=
    mapM_ok_of_all partSummarySpec partSummaryText l
      (fun p hp => partSummarySpec_ok p (h p hp).1 (h p hp).2)
  simp only [detailsSpec, hm, fieldOrDefault_eq_toString_jsOr]
  rfl

/-- C3: a valid appointment submission appends one entry to each of the
`appointments` and `customer-records` stores, at the end, sharing the same
freshly generated identifier, and leaves the other stores untouched. -/
theorem appointment_grows_both_stores (b : ApptReq) (freshId now : String) (st : Stores)
    (hn : truthy b.name = true) (hp : truthy b.phone = true)
    (ha : truthy b.address = true) (hv : truthy b.vehicle = true)
    (hi : truthy b.issue = true) :
    ∃ (ar : AppointmentRecord) (cr : CustomerRecord),
      (postAppointments b freshId now st).2.2.appointments = st.appointments ++ [ar]
      ∧ (postAppointments b freshId now st).2.2.customerRecords = st.customerRecords ++ [cr]
      ∧ ar.id = freshId ∧ cr.id = freshId
      ∧ (postAppointments b freshId now st).2.2.appointments.length
          = st.appointments.length + 1
      ∧ (postAppointments b freshId now st).2.2.customerRecords.length
          = st.customerRecords.length + 1 := by
  refine ⟨⟨⟨freshId, "Appointment", b.name, b.phone, b.address,
      "Vehicle: " ++ jsToString b.vehicle ++ " | Issue: " ++ jsToString b.issue, now⟩,
      b.vehicle, b.issue⟩,
    ⟨freshId, "Appointment", b.name, b.phone, b.address,
      "Vehicle: " ++ jsToString b.vehicle ++ " | Issue: " ++ jsToString b.issue, now⟩,
    ?_, ?_, rfl, rfl, ?_, ?_⟩ <;>
    simp [postAppointments, hn, hp, ha, hv, hi, addRecord]

theorem appointment_grows_both_stores_witness :
    ∃ (ar : AppointmentRecord) (cr : CustomerRecord),
      (postAppointments ⟨.jstr "Ann", .jstr "9876543210", .jstr "12 Main St",
          .jstr "Hatchback", .jstr "brakes"⟩ "id-3" "t-3" emptyStores).2.2.appointments
        = emptyStores.appointments ++ [ar]
      ∧ (postAppointments ⟨.jstr "Ann", .jstr "9876543210", .jstr "12 Main St",
          .jstr "Hatchback", .jstr "brakes"⟩ "id-3" "t-3" emptyStores).2.2.customerRecords
        = emptyStores.customerRecords ++ [cr]
      ∧ ar.id = "id-3" ∧ cr.id = "id-3"
      ∧ (postAppointments ⟨.jstr "Ann", .jstr "9876543210", .jstr "12 Main St",
          .jstr "Hatchback", .jstr "brakes"⟩ "id-3" "t-3" emptyStores).2.2.appointments.length
        = emptyStores.appointments.length + 1
      ∧ (postAppointments ⟨.jstr "Ann", .jstr "9876543210", .jstr "12 Main St",
          .jstr "Hatchback", .jstr "brakes"⟩ "id-3" "t-3" emptyStores).2.2.customerRecords.length
        = emptyStores.customerRecords.length + 1 :=
  appointment_grows_both_stores _ "id-3" "t-3" emptyStores rfl rfl rfl rfl rfl

/-- C4: a submission failing validation is answered with status 400 and a
descriptive message, and no store is changed. -/
theorem invalid_submission_no_write (freshId now : String) (st : Stores) :
    (∀ b : ApptReq,
      truthy b.name = false ∨ truthy b.phone = false ∨ truthy b.address = false
        ∨ truthy b.vehicle = false ∨ truthy b.issue = false →
      postAppointments b freshId now st
        = (400, .failure "All appointment fields are required.", st))
    ∧ (∀ b : SpareReq,
      truthy b.name = false ∨ truthy b.phone = false ∨ truthy b.address = false
        ∨ isNonEmptyArray b.parts = false →
      postSpares b freshId now st
        = .ok (400, .failure "Customer details and at least one part are required.", st))
    ∧ (∀ b : FeedbackReq,
      truthy b.name = false ∨ truthy b.message = false ∨ toNumber b.rating = none
        ∨ (∃ q : ℚ, toNumber b.rating = some q ∧ q ≤ 0) →
      postFeedback b freshId now st
        = (400, .failure "Name, message, and rating are required.", st))
    ∧ (∀ b : ContactReq,
      truthy b.name = false ∨ truthy b.phone = false ∨ truthy b.message = false →
      postContact b freshId now st
        = (400, .failure "All contact fields are required.", st)) := by
  refine ⟨fun b h => ?_, fun b h => ?_, fun b h => ?_, fun b h => ?_⟩
  · rcases h with h | h | h | h | h <;> simp [postAppointments, h]
  · rcases h with h | h | h | h <;> simp [postSpares, h]
  · rcases h with h | h | h | ⟨q, hq, hle⟩
    · simp only [postFeedback]
      cases toNumber b.rating <;> simp [h]
    · simp only [postFeedback]
      cases toNumber b.rating <;> simp [h]
    · simp [postFeedback, h]
    · simp [postFeedback, hq, hle]
  · rcases h with h | h | h <;> simp [postContact, h]

theorem invalid_submission_no_write_witness :
    postAppointments ⟨.jundefined, .jundefined, .jundefined, .jundefined, .jundefined⟩
        "id-4" "t-4" emptyStores
      = (400, .failure "All appointment fields are required.", emptyStores) :=
  (invalid_submission_no_write "id-4" "t-4" emptyStores).1 _ (Or.inl rfl)

/-- C7: login answers 400 when username or password is missing (falsy), 401
when both are present but either differs from the configured credentials
(defaulting to `admin`/`admin123`), and 200 `{ok:true}` on a match. -/
theorem login_spec (username password : JSValue) (adminUserEnv adminPassEnv : Option String) :
    ((truthy username = false ∨ truthy password = false) →
      postLogin username password adminUserEnv adminPassEnv
        = (400, .failure "Missing username or password."))
    ∧ (truthy username = true → truthy password = true →
      (jsStrictEqStr username (orDefault adminUserEnv "admin") = false
        ∨ jsStrictEqStr password (orDefault adminPassEnv "admin123") = false) →
      postLogin username password adminUserEnv adminPassEnv
        = (401, .failure "Invalid credentials."))
    ∧ (username = .jstr (orDefault adminUserEnv "admin") →
      password = .jstr (orDefault adminPassEnv "admin123") →
      postLogin username password adminUserEnv adminPassEnv
        = (200, .success none)) := by
  refine ⟨fun h => ?_, fun hu hp h => ?_, fun hu hp => ?_⟩
  · rcases h with h | h <;> simp [postLogin, h]
  · rcases h with h | h <;> simp [postLogin, hu, hp, h]
  · subst hu hp
    have h1 : (orDefault adminUserEnv "admin").isEmpty = false :=
      orDefault_isEmpty_eq_false _ _ rfl
    have h2 : (orDefault adminPassEnv "admin123").isEmpty = false :=
      orDefault_isEmpty_eq_false _ _ rfl
    simp [postLogin, truthy, jsStrictEqStr, h1, h2]

theorem login_spec_witness :
    postLogin (.jstr "admin") (.jstr "admin123") none none = (200, .success none) :=
  (login_spec (.jstr "admin") (.jstr "admin123") none none).2.2 rfl rfl

/-- C1 counterexample: a valid contact submission is accepted and its record
stored, yet the response body is a bare 200 `{ok:true}` carrying no record
(`ApiBody.success none`), not the created record. -/
theorem contact_response_carries_no_record :
    postContact ⟨.jstr "Ann", .jstr "9876543210", .jstr "hello"⟩ "id-1" "t-1" emptyStores
      = (200, ApiBody.success none,
          { emptyStores with
              contacts := [⟨"id-1", .jstr "Ann", .jstr "9876543210", .jstr "hello", "t-1"⟩] })
    ∧ ApiBody.success (none : Option ContactRecord)
        ≠ ApiBody.success
            (some ⟨"id-1", .jstr "Ann", .jstr "9876543210", .jstr "hello", "t-1"⟩) := by
  constructor
  · rfl
  · simp

/-- C1 amended: an accepted appointment or spare-parts submission (for the
latter, one whose parts are all defined values — a `null`/`undefined` part
crashes the handler before any response) is answered 200 with the
customer-record projection — the submitted vehicle, issue, parts and total
appear in the response only inside its `details` text, while the extended
record holding them as fields goes to the type-specific store; an accepted
contact submission is answered 200 with no record in the body. -/
theorem accepted_submission_response (freshId now : String) (st : Stores) :
    (∀ b : ApptReq, truthy b.name = true → truthy b.phone = true →
      truthy b.address = true → truthy b.vehicle = true → truthy b.issue = true →
      ∃ rec : CustomerRecord,
        postAppointments b freshId now st
          = (200, .success (some rec),
              { st with
                  appointments := st.appointments ++ [⟨rec, b.vehicle, b.issue⟩],
                  customerRecords := st.customerRecords ++ [rec] })
        ∧ rec.name = b.name ∧ rec.phone = b.phone ∧ rec.address = b.address
        ∧ rec.details = "Vehicle: " ++ jsToString b.vehicle
            ++ " | Issue: " ++ jsToString b.issue)
    ∧ (∀ b : SpareReq, truthy b.name = true → truthy b.phone = true →
      truthy b.address = true → isNonEmptyArray b.parts = true →
      (∀ p ∈ asArray b.parts, p ≠ .jnull ∧ p ≠ .jundefined) →
      ∃ rec : CustomerRecord,
        postSpares b freshId now st
          = .ok (200, .success (some rec),
              { st with
                  spares := st.spares ++ [⟨rec, asArray b.parts, b.total⟩],
                  customerRecords := st.customerRecords ++ [rec] })
        ∧ rec.name = b.name ∧ rec.phone = b.phone ∧ rec.address = b.address
        ∧ rec.details
            = String.intercalate " | " ((asArray b.parts).map partSummaryText)
              ++ " | Total: " ++ jsToString (jsOr b.total (.jstr "0")))
    ∧ (∀ b : ContactReq, truthy b.name = true → truthy b.phone = true →
      truthy b.message = true →
      postContact b freshId now st
        = (200, .success none,
            { st with contacts := st.contacts ++ [⟨freshId, b.name, b.phone, b.message, now⟩] })) := by
  refine ⟨fun b h1 h2 h3 h4 h5 => ?_, fun b h1 h2 h3 h4 h5 => ?_, fun b h1 h2 h3 => ?_⟩
  · refine ⟨⟨freshId, "Appointment", b.name, b.phone, b.address,
      "Vehicle: " ++ jsToString b.vehicle ++ " | Issue: " ++ jsToString b.issue, now⟩,
      ?_, rfl, rfl, rfl, rfl⟩
    simp [postAppointments, h1, h2, h3, h4, h5, addRecord]
  · have hcond : (!truthy b.name || !truthy b.phone || !truthy b.address
        || !isNonEmptyArray b.parts) = false := by
      simp [h1, h2, h3, h4]
    refine ⟨⟨freshId, "Spare Parts", b.name, b.phone, b.address,
      String.intercalate " | " ((asArray b.parts).map partSummaryText)
        ++ " | Total: " ++ jsToString (jsOr b.total (.jstr "0")), now⟩,
      ?_, rfl, rfl, rfl, rfl⟩
    unfold postSpares
    rw [hcond, mapM_partSummary_ok _ h5]
    rfl
  · simp [postContact, h1, h2, h3, addRecord]

theorem accepted_submission_response_witness :
    postContact ⟨.jstr "Bea", .jstr "9876543210", .jstr "ping"⟩ "id-1b" "t-1b" emptyStores
      = (200, .success none,
          { emptyStores with
              contacts := [⟨"id-1b", .jstr "Bea", .jstr "9876543210", .jstr "ping", "t-1b"⟩] }) :=
  (accepted_submission_response "id-1b" "t-1b" emptyStores).2.2 _ rfl rfl rfl

/-- Helper: a list no element of which satisfies the positive test is kept
whole by the complementary filter. -/
theorem filter_ne_eq_self_of_no_match {α : Type} (p : α → Bool) :
    ∀ l : List α, l.filter (fun a => p a) = [] → l.filter (fun a => !p a) = l := by
  intro l h
  induction l with
  | nil => rfl
  | cons a t ih =>
    cases hp : p a with
    | true => simp [List.filter_cons, hp] at h
    | false =>
      simp only [List.filter_cons, hp] at h ⊢
      simp [ih h]

/-- Helper: with at most one match, filtering the matches away is erasing the
first match. -/
theorem filter_not_eq_eraseP_of_at_most_one {α : Type} (p : α → Bool) :
    ∀ l : List α, (l.filter (fun a => p a)).length ≤ 1 →
      l.filter (fun a => !p a) = l.eraseP (fun a => p a) := by
  intro l h
  induction l with
  | nil => rfl
  | cons a t ih =>
    cases hp : p a with
    | true =>
      simp only [List.filter_cons, hp, cond_true, List.eraseP_cons, if_pos] at h ⊢
      have ht : t.filter (fun x => p x) = [] := by
        have := Nat.le_of_succ_le_succ h
        exact List.length_eq_zero.mp (Nat.le_zero.mp this)
      simp [filter_ne_eq_self_of_no_match p t ht]
    | false =>
      simp only [List.filter_cons, hp, List.eraseP_cons] at h ⊢
      simp [ih h]

/-- C2 counterexample: on a store holding two records that share the
identifier `a`, the delete handler removes both (the saved sequence is
empty), not just the first match with the second record kept. -/
theorem deleteCustomerRecord_duplicate_removes_all :
    deleteCustomerRecord "a"
        [⟨"a", "Appointment", .jstr "N1", .jstr "p1", .jstr "ad1", "d1", "t1"⟩,
         ⟨"a", "Spare Parts", .jstr "N2", .jstr "p2", .jstr "ad2", "d2", "t2"⟩]
      = (200, .success none, some [])
    ∧ some ([] : List CustomerRecord)
        ≠ some [⟨"a", "Spare Parts", .jstr "N2", .jstr "p2", .jstr "ad2", "d2", "t2"⟩] := by
  constructor
  · rfl
  · simp

/-- C2 amended: the delete handler removes every record whose identifier
matches — which is exactly the first (and only) match whenever at most one
record matches — leaves the non-matching records in order, persists the
filtered sequence with a 200 response when something matched, and answers 404
without rewriting the store when nothing matched. -/
theorem deleteCustomerRecord_spec (id : String) (records : List CustomerRecord) :
    ((∀ r ∈ records, r.id ≠ id) →
      deleteCustomerRecord id records = (404, .failure "Record not found.", none))
    ∧ ((∃ r ∈ records, r.id = id) →
      deleteCustomerRecord id records
        = (200, .success none, some (records.filter (fun r => r.id ≠ id))))
    ∧ ((records.filter (fun r => r.id = id)).length ≤ 1 →
      records.filter (fun r => r.id ≠ id)
        = records.eraseP (fun r => r.id = id)) := by
  refine ⟨fun h => ?_, fun h => ?_, fun h => ?_⟩
  · have hall : records.filter (fun r => decide (r.id ≠ id)) = records :=
      List.filter_eq_self.mpr (fun a ha => by simpa using h a ha)
    simp [deleteCustomerRecord, hall]
    exact fun x hx => h x hx
  · obtain ⟨r, hr, hid⟩ := h
    have hlt : (records.filter (fun r => decide (r.id ≠ id))).length ≠ records.length := by
      intro heq
      have := (List.filter_length_eq_length.mp heq) r hr
      simp [hid] at this
    simp only [deleteCustomerRecord, if_neg hlt]
  · have := filter_not_eq_eraseP_of_at_most_one (fun r : CustomerRecord => decide (r.id = id))
      records (by simpa using h)
    simpa using this

theorem deleteCustomerRecord_spec_witness :
    deleteCustomerRecord "a"
        [⟨"a", "Appointment", .jstr "N1", .jstr "p1", .jstr "ad1", "d1", "t1"⟩,
         ⟨"b", "Appointment", .jstr "N2", .jstr "p2", .jstr "ad2", "d2", "t2"⟩]
      = (200, .success none,
          some [⟨"b", "Appointment", .jstr "N2", .jstr "p2", .jstr "ad2", "d2", "t2"⟩]) :=
  (deleteCustomerRecord_spec "a"
      [⟨"a", "Appointment", .jstr "N1", .jstr "p1", .jstr "ad1", "d1", "t1"⟩,
       ⟨"b", "Appointment", .jstr "N2", .jstr "p2", .jstr "ad2", "d2", "t2"⟩]).2.1
    ⟨_, List.mem_cons_self _ _, rfl⟩

/-- C5: with provider credentials and sender configured, a number not
starting with `+` has its non-digits stripped and the configured
country-code prefix (default `+91`) prepended, a number starting with `+`
passes through unchanged, the result is checked against `+` followed by 10
to 15 digits and an invalid number skips the send without error; with the
default prefix, `9876543210` becomes `+919876543210` and is sent and `123`
is skipped as `+91123`, while `+14155552671` is sent unchanged under any
prefix. -/
theorem sendSms_normalization (env : SmsEnv) (msg : String)
    (hsid : truthyEnv env.sid = true) (hauth : truthyEnv env.auth = true)
    (hph : truthyEnv env.phone = true) :
    (∀ toArg : String, startsWithPlus toArg = false →
      sendSms env toArg msg
        = (let n := orDefault env.countryCode "+91"
              ++ String.mk (toArg.toList.filter Char.isDigit)
           if phonePattern n then .sent ((env.phone).getD "") n msg
           else .skippedInvalid n))
    ∧ (∀ toArg : String, startsWithPlus toArg = true →
      sendSms env toArg msg
        = (if phonePattern toArg then .sent ((env.phone).getD "") toArg msg
           else .skippedInvalid toArg))
    ∧ (env.countryCode = none →
      sendSms env "9876543210" msg = .sent ((env.phone).getD "") "+919876543210" msg
      ∧ sendSms env "123" msg = .skippedInvalid "+91123")
    ∧ sendSms env "+14155552671" msg = .sent ((env.phone).getD "") "+14155552671" msg := by
  have hn : ∀ toArg : String, startsWithPlus toArg = false →
      sendSms env toArg msg
        = (let n := orDefault env.countryCode "+91"
              ++ String.mk (toArg.toList.filter Char.isDigit)
           if phonePattern n then .sent ((env.phone).getD "") n msg
           else .skippedInvalid n) := by
    intro toArg h
    simp only [sendSms, hsid, hauth, hph, h, Bool.and_self,
      Bool.not_true, Bool.false_or, if_false, Bool.false_eq_true, if_neg]
    cases hp : phonePattern (orDefault env.countryCode "+91"
        ++ String.mk (toArg.toList.filter Char.isDigit)) <;>
      simp [hp]
  have hy : ∀ toArg : String, startsWithPlus toArg = true →
      sendSms env toArg msg
        = (if phonePattern toArg then .sent ((env.phone).getD "") toArg msg
           else .skippedInvalid toArg) := by
    intro toArg h
    simp only [sendSms, hsid, hauth, hph, h, Bool.and_self, Bool.not_true,
      Bool.false_or, if_true, Bool.false_eq_true, if_neg]
    cases hp : phonePattern toArg <;> simp [hp]
  refine ⟨hn, hy, fun hcc => ⟨?_, ?_⟩, ?_⟩
  · rw [hn "9876543210" rfl, hcc]
    have h1 : (orDefault none "+91" ++ String.mk ("9876543210".toList.filter Char.isDigit))
        = "+919876543210" := by decide
    have hp : phonePattern "+919876543210" = true := by decide
    simp only [h1, hp]
    rfl
  · rw [hn "123" rfl, hcc]
    have h1 : (orDefault none "+91" ++ String.mk ("123".toList.filter Char.isDigit))
        = "+91123" := by decide
    have hp : phonePattern "+91123" = false := by decide
    simp only [h1, hp]
    rfl
  · rw [hy "+14155552671" rfl]
    have hp : phonePattern "+14155552671" = true := by decide
    simp only [hp]
    rfl

theorem sendSms_normalization_witness :
    sendSms ⟨some "sid", some "auth", some "+10000000000", none⟩ "9876543210" "hi"
      = .sent "+10000000000" "+919876543210" "hi" :=
  ((sendSms_normalization ⟨some "sid", some "auth", some "+10000000000", none⟩ "hi"
      rfl rfl rfl).2.2.1 rfl).1
/-- C6: with name and message present, a feedback submission whose rating
coerces to a finite number greater than 0 is accepted with 200 and the stored
rating is the coerced number; a rating coercing to NaN or to a number at most
0 is rejected with 400 and nothing is stored. -/
theorem feedback_rating_validation (name message rating : JSValue)
    (freshId now : String) (st : Stores)
    (hn : truthy name = true) (hm : truthy message = true) :
    (∀ q : ℚ, toNumber rating = some q → 0 < q →
      postFeedback ⟨name, message, rating⟩ freshId now st
        = (200, .success (some ⟨freshId, name, message, q, now⟩),
            { st with feedback := st.feedback ++ [⟨freshId, name, message, q, now⟩] }))
    ∧ (toNumber rating = none ∨ (∃ q : ℚ, toNumber rating = some q ∧ q ≤ 0) →
      postFeedback ⟨name, message, rating⟩ freshId now st
        = (400, .failure "Name, message, and rating are required.", st)) := by
  constructor
  · intro q hq hpos
    have hle : ¬ q ≤ 0 := not_le.mpr hpos
    simp [postFeedback, hq, hn, hm, hle, addRecord]
  · rintro (h | ⟨q, hq, hle⟩)
    · simp [postFeedback, h]
    · simp [postFeedback, hq, hle]

theorem feedback_rating_validation_witness :
    postFeedback ⟨.jstr "Ann", .jstr "great", .jnum (4.5 : ℚ)⟩ "id-6" "t-6" emptyStores
      = (200,
          .success (some ⟨"id-6", .jstr "Ann", .jstr "great", (4.5 : ℚ), "t-6"⟩),
          { emptyStores with
              feedback := [⟨"id-6", .jstr "Ann", .jstr "great", (4.5 : ℚ), "t-6"⟩] }) :=
  (feedback_rating_validation (.jstr "Ann") (.jstr "great") (.jnum (4.5 : ℚ))
      "id-6" "t-6" emptyStores rfl rfl).1 (4.5 : ℚ) rfl (by norm_num)

/-- C10: the feedback rating check runs on the `Number()` coercion of the
submitted value, so the non-number `true` is accepted and stored as the
number 1; in general any accepted submission stores the coerced number as the
rating. -/
theorem feedback_rating_uses_coercion (name message : JSValue)
    (freshId now : String) (st : Stores)
    (hn : truthy name = true) (hm : truthy message = true) :
    postFeedback ⟨name, message, .jbool true⟩ freshId now st
      = (200, .success (some ⟨freshId, name, message, 1, now⟩),
          { st with feedback := st.feedback ++ [⟨freshId, name, message, 1, now⟩] })
    ∧ (∀ rating : JSValue, ∀ q : ℚ, toNumber rating = some q → 0 < q →
      ∃ rec : FeedbackRecord,
        (postFeedback ⟨name, message, rating⟩ freshId now st).2.1 = .success (some rec)
        ∧ rec.rating = q) := by
  constructor
  · have h1 : toNumber (.jbool true) = some 1 := rfl
    have hle : ¬ (1 : ℚ) ≤ 0 := by norm_num
    simp [postFeedback, h1, hn, hm, hle, addRecord]
  · intro rating q hq hpos
    have hle : ¬ q ≤ 0 := not_le.mpr hpos
    refine ⟨⟨freshId, name, message, q, now⟩, ?_, rfl⟩
    simp [postFeedback, hq, hn, hm, hle]

theorem feedback_rating_uses_coercion_witness :
    postFeedback ⟨.jstr "Bea", .jstr "ok", .jbool true⟩ "id-10" "t-10" emptyStores
      = (200, .success (some ⟨"id-10", .jstr "Bea", .jstr "ok", 1, "t-10"⟩),
          { emptyStores with
              feedback := [⟨"id-10", .jstr "Bea", .jstr "ok", 1, "t-10"⟩] }) :=
  (feedback_rating_uses_coercion (.jstr "Bea") (.jstr "ok") "id-10" "t-10"
      emptyStores rfl rfl).1
/-- C8: loading a collection whose backing file is absent creates the file
containing the empty sequence and returns it; a file parsing to `null` (or an
absent value) yields the fallback; a well-formed file yields its parsed
contents unchanged; any other read or parse failure propagates as an error;
and `GET /api/feedback` on an absent store answers 200 `{ok:true, records:[]}`
having created the empty backing collection. -/
theorem loadStore_spec (fallback : JSValue) :
    readJson .absent fallback = .ok (fallback, .parsed fallback)
    ∧ loadStore .absent = .ok (.jarr [], .parsed (.jarr []))
    ∧ (∀ v : JSValue, isNullish v = true →
      readJson (.parsed v) fallback = .ok (fallback, .parsed v))
    ∧ (∀ v : JSValue, isNullish v = false →
      readJson (.parsed v) fallback = .ok (v, .parsed v))
    ∧ readJson .invalid fallback = .error ()
    ∧ getFeedback .absent = .ok ((200, true, .jarr []), .parsed (.jarr []))
    ∧ getFeedback .invalid = .error () := by
  refine ⟨rfl, rfl, fun v hv => ?_, fun v hv => ?_, rfl, rfl, rfl⟩
  · simp [readJson, hv]
  · simp [readJson, hv]

theorem loadStore_spec_witness :
    readJson (.parsed .jnull) (.jarr []) = .ok (.jarr [], .parsed .jnull) :=
  (loadStore_spec (.jarr [])).2.2.1 .jnull rfl

/-- C9 counterexample: the summary defaults are applied to falsy present
values, not only absent ones — a part submitted with `qty: 0` renders as
`Qty: 1` (`part.qty || "1"` takes the default on the falsy `0`), where the
claim's "default if absent" requires `Qty: 0`. -/
theorem spares_qty_zero_renders_default :
    postSpares ⟨.jstr "Ann", .jstr "9876543210", .jstr "12 Main St",
        .jarr [.jobj [("name", .jstr "Brake Pad"), ("qty", .jnum 0),
          ("amount", .jnum 500)]], .jnum 1000⟩ "id-9c" "t-9c" emptyStores
      = .ok (200,
          .success (some ⟨"id-9c", "Spare Parts", .jstr "Ann", .jstr "9876543210",
            .jstr "12 Main St",
            "Brake Pad | Qty: 1 | Amount: 500 | Total: 1000", "t-9c"⟩),
          { emptyStores with
              spares := [⟨⟨"id-9c", "Spare Parts", .jstr "Ann", .jstr "9876543210",
                .jstr "12 Main St", "Brake Pad | Qty: 1 | Amount: 500 | Total: 1000",
                "t-9c"⟩,
                [.jobj [("name", .jstr "Brake Pad"), ("qty", .jnum 0),
                  ("amount", .jnum 500)]], .jnum 1000⟩],
              customerRecords := [⟨"id-9c", "Spare Parts", .jstr "Ann",
                .jstr "9876543210", .jstr "12 Main St",
                "Brake Pad | Qty: 1 | Amount: 500 | Total: 1000", "t-9c"⟩] })
    ∧ ("Brake Pad | Qty: 1 | Amount: 500 | Total: 1000" : String)
        ≠ "Brake Pad | Qty: 0 | Amount: 500 | Total: 1000" := by
  constructor
  · have hsum : partSummaryText (.jobj [("name", .jstr "Brake Pad"), ("qty", .jnum 0),
        ("amount", .jnum 500)]) = "Brake Pad | Qty: 1 | Amount: 500" := by
      have e1 : jsOr (jgetD (.jobj [("name", .jstr "Brake Pad"), ("qty", .jnum 0),
          ("amount", .jnum 500)]) "name") (.jstr "Part") = .jstr "Brake Pad" := rfl
      have e2 : jsOr (jgetD (.jobj [("name", .jstr "Brake Pad"), ("qty", .jnum 0),
          ("amount", .jnum 500)]) "qty") (.jstr "1") = .jstr "1" := rfl
      have e3 : jsOr (jgetD (.jobj [("name", .jstr "Brake Pad"), ("qty", .jnum 0),
          ("amount", .jnum 500)]) "amount") (.jstr "0") = .jnum 500 := rfl
      simp only [partSummaryText, e1, e2, e3, jsToString]
      decide
    have hm : ([.jobj [("name", .jstr "Brake Pad"), ("qty", .jnum 0),
        ("amount", .jnum 500)]] : List JSValue).mapM partSummary
        = .ok ["Brake Pad | Qty: 1 | Amount: 500"] := by
      rw [mapM_partSummary_ok _ (by simp), List.map_cons, List.map_nil, hsum]
    have e4 : jsOr (.jnum 1000) (.jstr "0") = .jnum 1000 := rfl
    have htot : jsToString (.jnum 1000) = "1000" := by
      simp only [jsToString]
      decide
    have hcond : (!truthy (JSValue.jstr "Ann") || !truthy (JSValue.jstr "9876543210")
        || !truthy (JSValue.jstr "12 Main St")
        || !isNonEmptyArray (.jarr [.jobj [("name", .jstr "Brake Pad"),
          ("qty", .jnum 0), ("amount", .jnum 500)]])) = false := rfl
    simp only [postSpares, hcond, Bool.false_eq_true, if_false, hm, e4, htot,
      asArray, addRecord]
    rfl
  · decide

/-- C9 amended: for a valid spare-parts submission all of whose parts are
defined values, the response record's details text is the per-part summaries
`name | Qty: qty | Amount: amount` joined by `" | "` followed by
`" | Total: "` and the total, with the defaults `Part`, `1`, `0` (and `0`
for the total) applied to absent and falsy fields alike (`detailsSpec`), the
record's type tag is `Spare Parts` and the same record is appended to the
customer-records store; a submission with a `null` or `undefined` part makes
the handler throw before responding or writing. -/
theorem spares_details_summary (freshId now : String) (st : Stores) :
    (∀ b : SpareReq, truthy b.name = true → truthy b.phone = true →
      truthy b.address = true → isNonEmptyArray b.parts = true →
      (∀ p ∈ asArray b.parts, p ≠ .jnull ∧ p ≠ .jundefined) →
      ∃ (rec : CustomerRecord) (st' : Stores),
        postSpares b freshId now st = .ok (200, .success (some rec), st')
        ∧ detailsSpec (asArray b.parts) b.total = .ok rec.details
        ∧ rec.type = "Spare Parts"
        ∧ st'.customerRecords = st.customerRecords ++ [rec])
    ∧ (∀ b : SpareReq, truthy b.name = true → truthy b.phone = true →
      truthy b.address = true → isNonEmptyArray b.parts = true →
      (∃ p ∈ asArray b.parts, p = .jnull ∨ p = .jundefined) →
      postSpares b freshId now st = .error ()) := by
  constructor
  · intro b h1 h2 h3 h4 h5
    have hcond : (!truthy b.name || !truthy b.phone || !truthy b.address
        || !isNonEmptyArray b.parts) = false := by
      simp [h1, h2, h3, h4]
    have hpost : postSpares b freshId now st
        = .ok (200,
            .success (some ⟨freshId, "Spare Parts", b.name, b.phone, b.address,
              String.intercalate " | " ((asArray b.parts).map partSummaryText)
                ++ " | Total: " ++ jsToString (jsOr b.total (.jstr "0")), now⟩),
            { st with
                spares := st.spares
                  ++ [⟨⟨freshId, "Spare Parts", b.name, b.phone, b.address,
                      String.intercalate " | " ((asArray b.parts).map partSummaryText)
                        ++ " | Total: " ++ jsToString (jsOr b.total (.jstr "0")), now⟩,
                    asArray b.parts, b.total⟩],
                customerRecords := st.customerRecords
                  ++ [⟨freshId, "Spare Parts", b.name, b.phone, b.address,
                      String.intercalate " | " ((asArray b.parts).map partSummaryText)
                        ++ " | Total: " ++ jsToString (jsOr b.total (.jstr "0")), now⟩] }) := by
      unfold postSpares
      rw [hcond, mapM_partSummary_ok _ h5]
      rfl
    exact ⟨_, _, hpost, detailsSpec_ok _ _ h5, rfl, rfl⟩
  · intro b h1 h2 h3 h4 h5
    have hcond : (!truthy b.name || !truthy b.phone || !truthy b.address
        || !isNonEmptyArray b.parts) = false := by
      simp [h1, h2, h3, h4]
    unfold postSpares
    rw [hcond, mapM_partSummary_error _ h5]
    rfl

theorem spares_details_summary_witness :
    ∃ (rec : CustomerRecord) (st' : Stores),
      postSpares ⟨.jstr "Ann", .jstr "9876543210", .jstr "12 Main St",
          .jarr [.jobj [("name", .jstr "Brake Pad"), ("qty", .jnum 2),
            ("amount", .jnum 500)]], .jnum 1000⟩ "id-9" "t-9" emptyStores
        = .ok (200, .success (some rec), st')
      ∧ rec.details = "Brake Pad | Qty: 2 | Amount: 500 | Total: 1000"
      ∧ rec.type = "Spare Parts"
      ∧ st'.customerRecords = [rec] := by
  obtain ⟨rec, st', hpost, hdet, hty, hcr⟩ :=
    (spares_details_summary "id-9" "t-9" emptyStores).1
      ⟨.jstr "Ann", .jstr "9876543210", .jstr "12 Main St",
        .jarr [.jobj [("name", .jstr "Brake Pad"), ("qty", .jnum 2),
          ("amount", .jnum 500)]], .jnum 1000⟩ rfl rfl rfl rfl (by simp [asArray])
  refine ⟨rec, st', hpost, ?_, hty, by simpa using hcr⟩
  have hds : detailsSpec (asArray (.jarr [.jobj [("name", .jstr "Brake Pad"),
      ("qty", .jnum 2), ("amount", .jnum 500)]])) (.jnum 1000)
      = .ok "Brake Pad | Qty: 2 | Amount: 500 | Total: 1000" := by
    rw [detailsSpec_ok _ _ (by simp [asArray])]
    have e1 : jsOr (jgetD (.jobj [("name", .jstr "Brake Pad"), ("qty", .jnum 2),
        ("amount", .jnum 500)]) "name") (.jstr "Part") = .jstr "Brake Pad" := rfl
    have e2 : jsOr (jgetD (.jobj [("name", .jstr "Brake Pad"), ("qty", .jnum 2),
        ("amount", .jnum 500)]) "qty") (.jstr "1") = .jnum 2 := rfl
    have e3 : jsOr (jgetD (.jobj [("name", .jstr "Brake Pad"), ("qty", .jnum 2),
        ("amount", .jnum 500)]) "amount") (.jstr "0") = .jnum 500 := rfl
    have e4 : jsOr (.jnum 1000) (.jstr "0") = .jnum 1000 := rfl
    simp only [asArray, List.map_cons, List.map_nil, partSummaryText, e1, e2, e3, e4,
      jsToString]
    exact congrArg Except.ok (by decide)
  rw [hds] at hdet
  exact (Except.ok.inj hdet).symm
